import Mathlib

/-!
Verification development for the banana-app repository (src/app.py).

The file shallowly embeds the request/response orchestration pipeline of
app.py: the function process_images (lines 25-314) and download_image
(lines 323-338).  External effects (environment variable lookup, the
Gemini client, image decoding, temporary files, the result store) are
modelled by an explicit World record of oracles and a Trace record of
observable effects.  Python exceptions are modelled with Except: an
exception that escapes process_images shows up as an Except.error result,
while exceptions that the function catches internally are converted to
status strings exactly as the source does.
-/

/-- PIL color modes that occur in the pipeline (app.py lines 241-254).
Other PIL modes are not needed by the code paths modelled here. -/
inductive Mode
  | RGBA
  | P
  | LA
  | RGB
  | L
deriving DecidableEq

/-- Name of a mode as Python prints it (f-string of image.mode). -/
def modeName : Mode → String
  | Mode.RGBA => "RGBA"
  | Mode.P => "P"
  | Mode.LA => "LA"
  | Mode.RGB => "RGB"
  | Mode.L => "L"

/-- One pixel, stored as resolved RGBA channel values in 0..255.  For mode P
the palette lookup (including the transparency channel) is stored already
resolved, which is what PIL convert to RGBA would produce; for modes L and
RGB the alpha component is 255; for LA the three color components hold the
gray value. -/
structure Pix where
  r : Nat
  g : Nat
  b : Nat
  a : Nat
deriving DecidableEq

/-- A decoded PIL image: mode, size, pixel access and the format attribute
(PIL fills it for decoded files, None for images built in memory). -/
structure PILImage where
  mode : Mode
  width : Nat
  height : Nat
  px : Nat → Nat → Pix
  fmt : Option String

/-- A numpy array as delivered by the gradio widgets: shape and flat data. -/
structure NpArray where
  shape : List Nat
  data : List Nat

/-- numpy size: product of the dimensions. -/
def NpArray.size (a : NpArray) : Nat := a.shape.foldl (· * ·) 1

/-- An in-memory image value as the gradio widgets hand it over: either a
raw numpy pixel array or an already decoded PIL image (app.py lines
121-124 and 135-138 branch on exactly this). -/
inductive ImgVal
  | nd (arr : NpArray)
  | pil (im : PILImage)

/-- Python exceptions that the embedding tracks. -/
inductive PyErr
  | valueError (msg : String)
  | typeError (msg : String)
deriving DecidableEq

/-- Python str(e) of an exception: the message. -/
def PyErr.str : PyErr → String
  | PyErr.valueError m => m
  | PyErr.typeError m => m

/-- Python truthiness of the second_image argument as evaluated by
the expression at app.py line 36.  None is falsy; bool() of a numpy array
with more than one element raises ValueError; a one-element array has the
truth value of its element; an empty array is falsy (numpy returns False
with a deprecation warning); a PIL image object is always truthy. -/
def truthySecond : Option ImgVal → Except PyErr Bool
  | none => Except.ok false
  | some (ImgVal.nd a) =>
      if a.size > 1 then
        Except.error (PyErr.valueError
          "The truth value of an array with more than one element is ambiguous. Use a.any() or a.all()")
      else if a.size == 1 then Except.ok (a.data.headD 0 != 0)
      else Except.ok false
  | some (ImgVal.pil _) => Except.ok true

/-- PIL Image.fromarray on arr.astype(uint8) (app.py lines 122 and 136).
Supported shapes: 2-D gives mode L, H x W x 2 gives LA, H x W x 3 gives
RGB, H x W x 4 gives RGBA; anything else raises TypeError. -/
def fromarray (a : NpArray) : Except PyErr PILImage :=
  match a.shape with
  | [h, w] =>
      Except.ok
        { mode := Mode.L, width := w, height := h,
          px := fun x y => let g := a.data.getD (y * w + x) 0 % 256; { r := g, g := g, b := g, a := 255 },
          fmt := none }
  | [h, w, 2] =>
      Except.ok
        { mode := Mode.LA, width := w, height := h,
          px := fun x y =>
            let g := a.data.getD (2 * (y * w + x)) 0 % 256
            let al := a.data.getD (2 * (y * w + x) + 1) 0 % 256
            { r := g, g := g, b := g, a := al },
          fmt := none }
  | [h, w, 3] =>
      Except.ok
        { mode := Mode.RGB, width := w, height := h,
          px := fun x y =>
            let i := 3 * (y * w + x)
            { r := a.data.getD i 0 % 256, g := a.data.getD (i + 1) 0 % 256,
              b := a.data.getD (i + 2) 0 % 256, a := 255 },
          fmt := none }
  | [h, w, 4] =>
      Except.ok
        { mode := Mode.RGBA, width := w, height := h,
          px := fun x y =>
            let i := 4 * (y * w + x)
            { r := a.data.getD i 0 % 256, g := a.data.getD (i + 1) 0 % 256,
              b := a.data.getD (i + 2) 0 % 256, a := a.data.getD (i + 3) 0 % 256 },
          fmt := none }
  | _ => Except.error (PyErr.typeError "Cannot handle this data type")

/-- app.py lines 121-124 and 135-138: a numpy array goes through
Image.fromarray(arr.astype(uint8)), a PIL image is used as is. -/
def toPIL : ImgVal → Except PyErr PILImage
  | ImgVal.nd a => fromarray a
  | ImgVal.pil im => Except.ok im

/-- The emptiness test of app.py line 53 for a provided second image:
isinstance(second_image, np.ndarray) and second_image.size == 0. -/
def isEmptyNd : ImgVal → Bool
  | ImgVal.nd a => a.size == 0
  | ImgVal.pil _ => false

/-- One annotation box; the source reads each bound with dict.get, which
yields None when the key is absent (app.py lines 66-69). -/
structure Box where
  xmin : Option Int
  ymin : Option Int
  xmax : Option Int
  ymax : Option Int

/-- The dict produced by the gradio image annotator: the first image plus
an optional list of boxes (annotated_image.get("boxes"), line 59). -/
structure Annot where
  image : ImgVal
  boxes : Option (List Box)

/-- inline_data of a response part: the raw bytes. -/
structure InlineData where
  data : List Nat

/-- One content part of a Gemini response: optional text, optional binary
payload (app.py lines 208-214 test part.text and part.inline_data against
None). -/
structure RespPart where
  text : Option String
  inline_data : Option InlineData

/-- candidate.content, holding the ordered parts. -/
structure Content where
  parts : List RespPart

/-- One response candidate. -/
structure Candidate where
  content : Content

/-- A generation response; candidates may be None (line 196 tests
`not response.candidates or len(response.candidates) == 0`). -/
structure GenResponse where
  candidates : Option (List Candidate)

/-- One request to generate_content as issued at app.py lines 178-181:
the model identifier and the contents list [prompt, image1, image2]. -/
structure GenRequest where
  model : String
  prompt : String
  image1 : PILImage
  image2 : PILImage

/-- Oracles for everything outside the process: the environment variable,
the Gemini client constructor, the network call, the PNG decoder, and the
(random) temporary file names. -/
structure World where
  apiKey : Option String
  clientInitErr : Option String
  apiCall : GenRequest → Except String GenResponse
  decode : List Nat → Except String PILImage
  tmp1 : String
  tmp2 : String

/-- Observable effects of one invocation: which temporary encoded-image
files were created and deleted (1 is the first image, 2 the second),
which network requests were issued, and which result-store paths were
written. -/
structure Trace where
  tempCreated : List Nat := []
  tempDeleted : List Nat := []
  requests : List GenRequest := []
  storeWrites : List String := []

/-- Python str() of an optional integer (None prints as "None"). -/
def pyStrI : Option Int → String
  | none => "None"
  | some n => toString n

/-- Python str() of an optional string (None prints as "None"). -/
def pyStrS : Option String → String
  | none => "None"
  | some s => s

/-- Python str() of a bool. -/
def pyBool : Bool → String
  | true => "True"
  | false => "False"

/-- Python str() of image.size, the (width, height) tuple. -/
def pySize (im : PILImage) : String :=
  "(" ++ toString im.width ++ ", " ++ toString im.height ++ ")"

/-- "\n".join(debug_info). -/
def joinNL (l : List String) : String := String.intercalate "\n" l

/-- The status string built by the early-return statements of app.py, e.g.
line 50: the bare message, or message plus the joined debug trace when the
debug flag is set. -/
def mkStatus (dbg : Bool) (msg : String) (info : List String) : String :=
  if dbg then msg ++ "\n\nDebug Info:\n" ++ joinNL info else msg

/-- debug_info[-8:] (app.py line 277). -/
def lastN (n : Nat) (l : List String) : List String := l.drop (l.length - n)

/-- The fixed result-store file name (app.py lines 260-261 and 327-328
join the script directory with this constant; the directory part is
constant for the process and elided here). -/
def composite_path : String := "generated_composite.png"

/-- The model identifier of app.py line 179. -/
def modelName : String := "gemini-2.5-flash-image-preview"

/-- app.py line 287. -/
def noImageMsg : String := "No image was generated. Please try again."

/-- The falsiness test of app.py line 99: os.getenv returned None or an
empty string. -/
def apiKeyFalsy : Option String → Bool
  | none => true
  | some s => s == ""

/-- The first prompt built at app.py lines 75-90 (the f-string keeps the
8-space source indentation of its continuation lines).  This string is
built and logged but the request uses the enhanced prompt below. -/
def buildPrompt (xmin ymin xmax ymax : Option Int) : String :=
  "You are an expert photo editor using nano banana technology. Please intelligently combine these two images:\n\n        Task: Take the central object from the second image and seamlessly integrate it into the first image within the specified rectangular area.\n\n        Placement coordinates: The object should be placed within the bounding box defined by:\n        - Top-left corner: (" ++ pyStrI xmin ++ ", " ++ pyStrI ymin ++ ")\n        - Bottom-right corner: (" ++ pyStrI xmax ++ ", " ++ pyStrI ymax ++ ")\n\n        Requirements:\n        1. Maintain realistic lighting and shadows that match the first image\n        2. Ensure proper perspective and scaling of the inserted object\n        3. Blend the object naturally with the background\n        4. Preserve the style and aesthetic of the original first image\n        5. Pay attention to color temperature and lighting consistency\n\n        Create a photorealistic composite image that looks natural and professionally edited."

/-- The enhanced prompt of app.py lines 149-167: a constant template with
only the four coordinate values interpolated.  This is the prompt string
passed to generate_content. -/
def buildEnhancedPrompt (xmin ymin xmax ymax : Option Int) : String :=
  "Create a seamless composite image by taking the central object from the second image and naturally integrating it into the first image within the specified rectangular area.\n\nPLACEMENT COORDINATES (for internal use only): Place the object within bounding box coordinates:\n- Top-left: (" ++ pyStrI xmin ++ ", " ++ pyStrI ymin ++ ")  \n- Bottom-right: (" ++ pyStrI xmax ++ ", " ++ pyStrI ymax ++ ")\n\nCRITICAL REQUIREMENTS:\n- DO NOT draw, show, or display any bounding boxes, borders, rectangles, or coordinate markers on the final image\n- DO NOT include any text, numbers, or coordinate labels on the image\n- Create a clean, natural composite without any visible editing marks or annotations\n- Maintain realistic lighting and shadows that match the first image\n- Ensure proper perspective and scaling of the inserted object  \n- Blend the object naturally with the background\n- Preserve the style and aesthetic of the original first image\n- Pay attention to color temperature and lighting consistency\n\nOUTPUT FORMAT: Generate the result as a PNG image.\n\nCreate a photorealistic composite image that looks completely natural and professionally edited, with no visible signs of digital manipulation or coordinate markings."

/-- Channel count of a PIL mode. -/
def channels : Mode → Nat
  | Mode.RGBA => 4
  | Mode.P => 1
  | Mode.LA => 2
  | Mode.RGB => 3
  | Mode.L => 1

/-- image.convert to RGBA.  Pixels are stored already resolved to RGBA
channel values (see Pix), so only the mode tag changes. -/
def PILImage.convertRGBA (im : PILImage) : PILImage :=
  { im with mode := Mode.RGBA }

/-- image.convert to RGB: alpha is dropped without compositing. -/
def PILImage.convertRGB (im : PILImage) : PILImage :=
  { im with mode := Mode.RGB, px := fun x y => let p := im.px x y; { p with a := 255 } }

/-- The MULDIV255 rounding of the PIL C paste code:
((a * b + 128) shifted right 8, added back, shifted right 8). -/
def muldiv255 (a b : Nat) : Nat :=
  let t := a * b + 128
  (t / 256 + t) / 256

/-- One channel of a paste with an L mask, PIL BLEND macro:
dst * (255 - m) / 255 + src * m / 255 with MULDIV255 rounding. -/
def blendChan (dst src m : Nat) : Nat := muldiv255 dst (255 - m) + muldiv255 src m

/-- Image.new RGB white of the same size, then rgb_image.paste(image,
mask=image.split()[-1]): every channel is blended between white and the
source using the alpha channel as mask (app.py lines 247-249). -/
def pasteWhiteMask (im : PILImage) : PILImage :=
  { mode := Mode.RGB, width := im.width, height := im.height,
    px := fun x y =>
      let p := im.px x y
      { r := blendChan 255 p.r p.a, g := blendChan 255 p.g p.a,
        b := blendChan 255 p.b p.a, a := 255 },
    fmt := none }

/-- rgb_image.paste(image) without a mask (app.py line 251): the source
color is copied over the white background. -/
def pasteOpaque (im : PILImage) : PILImage :=
  { mode := Mode.RGB, width := im.width, height := im.height,
    px := fun x y => let p := im.px x y; { p with a := 255 },
    fmt := none }

/-- The outbound normalization of app.py lines 241-254: modes RGBA, P and
LA are converted to RGBA if needed and composited over opaque white using
the alpha channel as mask; any other non-RGB mode goes through a direct
convert; RGB passes through. -/
def normalizeOutbound (image : PILImage) : PILImage :=
  if image.mode = Mode.RGBA ∨ image.mode = Mode.P ∨ image.mode = Mode.LA then
    let image1 := if image.mode = Mode.P ∨ image.mode = Mode.LA then image.convertRGBA else image
    if image1.mode = Mode.RGBA then pasteWhiteMask image1 else pasteOpaque image1
  else if image.mode ≠ Mode.RGB then image.convertRGB
  else image

/-- The value returned in the image slot of the (image, status) pair:
either an in-memory PIL image or a filesystem path string. -/
inductive OutImage
  | pil (im : PILImage)
  | fspath (p : String)

/-- The loop of app.py lines 208-289 over candidate.content.parts, with
index i and the accumulated debug_info.  The first part carrying text
returns the text as the status with no image; otherwise the first part
carrying inline_data is decoded, normalized, written to the result store
and returned; a part with neither is skipped; if the list is exhausted the
no-image message is returned. -/
def scanParts (w : World) (dbg : Bool) :
    Nat → List String → Trace → List RespPart → (Option OutImage × String) × Trace
  | _, info, tr, [] =>
      ((none, mkStatus dbg noImageMsg (info ++ ["❌ " ++ noImageMsg])), tr)
  | i, info, tr, p :: rest =>
      let tstr := pyBool p.text.isSome
      let dstr := pyBool p.inline_data.isSome
      let istr := toString i
      let info := info ++ ["📋 Part " ++ istr ++ ": text=" ++ tstr ++ ", inline_data=" ++ dstr]
      match p.text with
      | some t =>
          let preview := if t = "" then "None" else t.take 200
          let info := info ++ ["📄 Text response: " ++ preview ++ "..."]
          let st0 := "Gemini Response (Text Only): " ++ t
          let st := if dbg then st0 ++ "\n\nDebug Info:\n" ++ joinNL info else st0
          ((none, st), tr)
      | none =>
          match p.inline_data with
          | some d =>
              match w.decode d.data with
              | Except.error ie =>
                  let msg := "Failed to process generated image: " ++ ie
                  ((none, mkStatus dbg msg (info ++ ["❌ " ++ msg])), tr)
              | Except.ok image0 =>
                  let szs := pySize image0
                  let ms := modeName image0.mode
                  let info := info ++ ["✅ Image created: " ++ szs ++ ", mode: " ++ ms]
                  let ofs := pyStrS image0.fmt
                  let info := info ++ ["📋 Original format from Gemini: " ++ ofs]
                  let image := normalizeOutbound image0
                  let ms2 := modeName image.mode
                  let info := info ++ ["✅ Converted to mode: " ++ ms2]
                  let tr := { tr with storeWrites := tr.storeWrites ++ [composite_path] }
                  let info := info ++ ["💾 Composite image saved as PNG: " ++ composite_path]
                  let info := info ++ ["🔍 Saved file format: PNG"]
                  let st0 := "✅ Clean composite image generated successfully!\n📁 Original format: " ++ ofs ++ " → Converted to PNG\n� Saved as: generated_composite.png\n📌 No bounding box markings included"
                  let st := if dbg then st0 ++ "\n\nDebug Info:\n" ++ joinNL (lastN 8 info) else st0
                  ((some (OutImage.pil image), st), tr)
          | none => scanParts w dbg (i + 1) info tr rest

/-- app.py lines 183-289 once generate_content returned: log, reject an
absent or empty candidates list, otherwise scan the first candidate. -/
def handleResponse (w : World) (dbg : Bool) (info : List String) (tr : Trace)
    (resp : GenResponse) : (Option OutImage × String) × Trace :=
  let info := info ++ ["✅ Received response from Gemini"]
  let cn := toString (resp.candidates.getD []).length
  let info := info ++ ["🔍 Response candidates count: " ++ cn]
  match resp.candidates.getD [] with
  | [] =>
      let msg := "No response candidates received"
      ((none, mkStatus dbg msg (info ++ ["❌ " ++ msg])), tr)
  | c :: _ =>
      let pc := toString c.content.parts.length
      let info := info ++ ["📊 Processing candidate with " ++ pc ++ " parts"]
      scanParts w dbg 0 info tr c.content.parts

/-- The try block of app.py lines 172-307: issue the single network call,
convert a raised error to the api-error status, and in the finally block
delete both temporary files (both exist whenever this block is reached). -/
def innerCall (w : World) (dbg : Bool) (info : List String) (tr : Trace)
    (enhanced_prompt : String) (im1 im2 : PILImage) : (Option OutImage × String) × Trace :=
  let req : GenRequest := { model := modelName, prompt := enhanced_prompt, image1 := im1, image2 := im2 }
  let tr := { tr with requests := tr.requests ++ [req] }
  let rt :=
    match w.apiCall req with
    | Except.error ae =>
        let msg := "Gemini API error: " ++ ae
        ((none, mkStatus dbg msg (info ++ ["❌ " ++ msg])), tr)
    | Except.ok resp => handleResponse w dbg info tr resp
  (rt.1, { rt.2 with tempDeleted := rt.2.tempDeleted ++ [1, 2] })

/-- app.py lines 64-307 after the three input validations succeeded: build
the prompts, check the credential, initialize the client, encode both
images to temporary files, and run the generation call.  A failure while
converting either image raises and is caught by the outer handler at line
309, which converts it to the unexpected-error status; note that when the
second conversion fails the first temporary file has already been created
and the finally block at line 298 is not reached. -/
def afterBoxes (w : World) (dbg : Bool) (info : List String) (box : Box)
    (firstv sv : ImgVal) : (Option OutImage × String) × Trace :=
  let xs := pyStrI box.xmin
  let ys := pyStrI box.ymin
  let xs2 := pyStrI box.xmax
  let ys2 := pyStrI box.ymax
  let info := info ++ ["📐 Bounding box: (" ++ xs ++ ", " ++ ys ++ ") to (" ++ xs2 ++ ", " ++ ys2 ++ ")"]
  let prompt := buildPrompt box.xmin box.ymin box.xmax box.ymax
  let info := info ++ ["📝 Generated prompt for Nano Banana"]
  if apiKeyFalsy w.apiKey then
    let msg := "❌ No Google API key found in environment variables"
    ((none, mkStatus dbg msg (info ++ [msg])), {})
  else
    let info := info ++ ["✅ Google API key found"]
    match w.clientInitErr with
    | some ce =>
        let msg := "Failed to initialize Gemini client: " ++ ce
        ((none, mkStatus dbg msg (info ++ ["❌ " ++ msg])), {})
    | none =>
        let info := info ++ ["✅ Gemini client initialized"]
        match toPIL firstv with
        | Except.error e =>
            let msg := "Unexpected error: " ++ e.str
            ((none, mkStatus dbg msg (info ++ ["❌ " ++ msg])), {})
        | Except.ok first_img_pil =>
            let tr : Trace := { tempCreated := [1] }
            let info := info ++ ["💾 First image saved: " ++ w.tmp1]
            match toPIL sv with
            | Except.error e =>
                let msg := "Unexpected error: " ++ e.str
                ((none, mkStatus dbg msg (info ++ ["❌ " ++ msg])), tr)
            | Except.ok second_img_pil =>
                let tr : Trace := { tempCreated := [1, 2] }
                let info := info ++ ["💾 Second image saved: " ++ w.tmp2]
                let enhanced_prompt := buildEnhancedPrompt box.xmin box.ymin box.xmax box.ymax
                let info := info ++ ["📝 Enhanced prompt created"]
                innerCall w dbg info tr enhanced_prompt first_img_pil second_img_pil

/-- The outer try block of app.py lines 45-314: the three input
validations of lines 47, 53 and 59, then afterBoxes; any exception inside
is caught at line 309, so this function is total. -/
def outerBody (w : World) (annotated : Option Annot) (second : Option ImgVal)
    (dbg : Bool) : (Option OutImage × String) × Trace :=
  let info := ["🚀 Function execution started"]
  match annotated with
  | none =>
      let msg := "Please provide the first image and draw an annotation box"
      ((none, mkStatus dbg msg (info ++ ["❌ " ++ msg])), {})
  | some ann =>
      match second with
      | none =>
          let msg := "Please provide the second image"
          ((none, mkStatus dbg msg (info ++ ["❌ " ++ msg])), {})
      | some sv =>
          if isEmptyNd sv then
            let msg := "Please provide the second image"
            ((none, mkStatus dbg msg (info ++ ["❌ " ++ msg])), {})
          else
            match ann.boxes.getD [] with
            | [] =>
                let msg := "Please draw an annotation box on the first image"
                ((none, mkStatus dbg msg (info ++ ["❌ " ++ msg])), {})
            | box :: _ => afterBoxes w dbg info box ann.image sv

/-- process_images (app.py lines 25-314).  The guard of line 36 runs
before the outer try block: when annotated_image is falsy, Python
evaluates the truthiness of second_image, which can raise for numpy
arrays; such an exception escapes the function and appears here as
Except.error.  Every other outcome is an Except.ok (image, status) pair. -/
def process_images (w : World) (annotated : Option Annot) (second : Option ImgVal)
    (debug_enabled : Bool) : Except PyErr (Option OutImage × String) × Trace :=
  match annotated with
  | some _ =>
      let r := outerBody w annotated second debug_enabled
      (Except.ok r.1, r.2)
  | none =>
      match truthySecond second with
      | Except.error e => (Except.error e, {})
      | Except.ok t =>
          if t then
            let r := outerBody w annotated second debug_enabled
            (Except.ok r.1, r.2)
          else
            (Except.ok (none, "🚀 DEBUG: Function called but no images provided"), {})

/-- download_image (app.py lines 323-338) before its exception handler:
return the fixed composite path when the file exists, else None.  The
filesystem is an oracle mapping paths to existence. -/
def download_image_body (fs : String → Bool) : Except PyErr (Option String) :=
  if fs composite_path then Except.ok (some composite_path) else Except.ok none

/-- download_image with its try handler of lines 336-338: any raised error
is converted to None, so the function is total. -/
def download_image (fs : String → Bool) : Option String :=
  match download_image_body fs with
  | Except.ok r => r
  | Except.error _ => none

/-- The first part carrying text or inline data, in iteration order. -/
def firstRelevant : List RespPart → Option RespPart
  | [] => none
  | p :: ps => if p.text.isSome || p.inline_data.isSome then some p else firstRelevant ps

theorem mkStatus_false (msg : String) (info : List String) : mkStatus false msg info = msg := rfl

theorem scanParts_keeps_trace (w : World) (dbg : Bool) (parts : List RespPart) :
    ∀ (i : Nat) (info : List String) (tr : Trace),
      (scanParts w dbg i info tr parts).2.tempCreated = tr.tempCreated ∧
      (scanParts w dbg i info tr parts).2.tempDeleted = tr.tempDeleted ∧
      (scanParts w dbg i info tr parts).2.requests = tr.requests := by
  induction parts with
  | nil => intro i info tr; simp [scanParts]
  | cons p rest ih =>
      intro i info tr
      cases hp : p.text with
      | some t => simp [scanParts, hp]
      | none =>
          cases hd : p.inline_data with
          | some d =>
              cases hdec : w.decode d.data with
              | error ie => simp [scanParts, hp, hd, hdec]
              | ok im => simp [scanParts, hp, hd, hdec]
          | none =>
              simp only [scanParts, hp, hd]
              exact ih _ _ _

theorem scanParts_no_relevant (w : World) (dbg : Bool) (parts : List RespPart)
    (hfr : firstRelevant parts = none) :
    ∀ (i : Nat) (info : List String) (tr : Trace), ∃ info2,
      scanParts w dbg i info tr parts = ((none, mkStatus dbg noImageMsg info2), tr) := by
  induction parts with
  | nil => intro i info tr; exact ⟨_, rfl⟩
  | cons p rest ih =>
      intro i info tr
      simp only [firstRelevant] at hfr
      by_cases hc : (p.text.isSome || p.inline_data.isSome) = true
      · simp [hc] at hfr
      · rw [if_neg hc] at hfr
        have ht : p.text = none := by
          cases hx : p.text
          · rfl
          · simp [hx] at hc
        have hd : p.inline_data = none := by
          cases hx : p.inline_data
          · rfl
          · simp [hx] at hc
        simp only [scanParts, ht, hd]
        exact ih hfr _ _ _

theorem scanParts_text_first (w : World) (dbg : Bool) (p : RespPart) (t : String)
    (hp : p.text = some t) (parts : List RespPart)
    (hfr : firstRelevant parts = some p) :
    ∀ (i : Nat) (info : List String) (tr : Trace), ∃ st,
      scanParts w dbg i info tr parts = ((none, st), tr) ∧
      (dbg = false → st = "Gemini Response (Text Only): " ++ t) := by
  induction parts with
  | nil => simp [firstRelevant] at hfr
  | cons q rest ih =>
      intro i info tr
      simp only [firstRelevant] at hfr
      by_cases hc : (q.text.isSome || q.inline_data.isSome) = true
      · rw [if_pos hc] at hfr
        have hq : q = p := by injection hfr
        subst hq
        simp only [scanParts, hp]
        refine ⟨_, rfl, ?_⟩
        intro hdbg
        subst hdbg
        simp
      · rw [if_neg hc] at hfr
        have ht : q.text = none := by
          cases hx : q.text
          · rfl
          · simp [hx] at hc
        have hd : q.inline_data = none := by
          cases hx : q.inline_data
          · rfl
          · simp [hx] at hc
        simp only [scanParts, ht, hd]
        exact ih hfr _ _ _

theorem scanParts_data_first (w : World) (dbg : Bool) (p : RespPart) (d : InlineData)
    (img : PILImage) (hpt : p.text = none) (hpd : p.inline_data = some d)
    (hdec : w.decode d.data = Except.ok img) (parts : List RespPart)
    (hfr : firstRelevant parts = some p) :
    ∀ (i : Nat) (info : List String) (tr : Trace), ∃ st,
      scanParts w dbg i info tr parts =
        ((some (OutImage.pil (normalizeOutbound img)), st),
         { tr with storeWrites := tr.storeWrites ++ [composite_path] }) := by
  induction parts with
  | nil => simp [firstRelevant] at hfr
  | cons q rest ih =>
      intro i info tr
      simp only [firstRelevant] at hfr
      by_cases hc : (q.text.isSome || q.inline_data.isSome) = true
      · rw [if_pos hc] at hfr
        have hq : q = p := by injection hfr
        subst hq
        simp only [scanParts, hpt, hpd, hdec]
        exact ⟨_, rfl⟩
      · rw [if_neg hc] at hfr
        have ht : q.text = none := by
          cases hx : q.text
          · rfl
          · simp [hx] at hc
        have hd : q.inline_data = none := by
          cases hx : q.inline_data
          · rfl
          · simp [hx] at hc
        simp only [scanParts, ht, hd]
        exact ih hfr _ _ _

theorem scanParts_some_is_pil (w : World) (dbg : Bool) (parts : List RespPart) :
    ∀ (i : Nat) (info : List String) (tr : Trace) (o : OutImage) (st : String),
      (scanParts w dbg i info tr parts).1 = (some o, st) →
      (∃ im, o = OutImage.pil im) ∧
      (scanParts w dbg i info tr parts).2.storeWrites = tr.storeWrites ++ [composite_path] := by
  induction parts with
  | nil => intro i info tr o st h; simp [scanParts] at h
  | cons p rest ih =>
      intro i info tr o st h
      cases hp : p.text with
      | some t => simp [scanParts, hp] at h
      | none =>
          cases hd : p.inline_data with
          | some d =>
              cases hdec : w.decode d.data with
              | error ie => simp [scanParts, hp, hd, hdec] at h
              | ok im =>
                  simp only [scanParts, hp, hd, hdec] at h ⊢
                  simp only [Prod.mk.injEq, Option.some.injEq] at h
                  exact ⟨⟨_, h.1.symm⟩, by simp⟩
          | none =>
              simp only [scanParts, hp, hd] at h ⊢
              exact ih _ _ _ _ _ h

theorem handleResponse_keeps_trace (w : World) (dbg : Bool) (info : List String)
    (tr : Trace) (resp : GenResponse) :
    (handleResponse w dbg info tr resp).2.tempCreated = tr.tempCreated ∧
    (handleResponse w dbg info tr resp).2.tempDeleted = tr.tempDeleted ∧
    (handleResponse w dbg info tr resp).2.requests = tr.requests := by
  cases hc : resp.candidates.getD [] with
  | nil => simp [handleResponse, hc]
  | cons c cs =>
      simp only [handleResponse, hc]
      exact scanParts_keeps_trace w dbg c.content.parts _ _ _

theorem handleResponse_some_is_pil (w : World) (dbg : Bool) (info : List String)
    (tr : Trace) (resp : GenResponse) (o : OutImage) (st : String)
    (h : (handleResponse w dbg info tr resp).1 = (some o, st)) :
    (∃ im, o = OutImage.pil im) ∧
    (handleResponse w dbg info tr resp).2.storeWrites = tr.storeWrites ++ [composite_path] := by
  cases hc : resp.candidates.getD [] with
  | nil => simp [handleResponse, hc] at h
  | cons c cs =>
      simp only [handleResponse, hc] at h ⊢
      exact scanParts_some_is_pil w dbg c.content.parts _ _ _ _ _ h

theorem handleResponse_cons (w : World) (dbg : Bool) (info : List String)
    (tr : Trace) (resp : GenResponse) (c : Candidate) (cs : List Candidate)
    (hc : resp.candidates.getD [] = c :: cs) :
    ∃ info2, handleResponse w dbg info tr resp = scanParts w dbg 0 info2 tr c.content.parts := by
  simp only [handleResponse, hc]
  exact ⟨_, rfl⟩

theorem innerCall_trace (w : World) (dbg : Bool) (info : List String) (tr : Trace)
    (ep : String) (im1 im2 : PILImage) :
    (innerCall w dbg info tr ep im1 im2).2.tempCreated = tr.tempCreated ∧
    (innerCall w dbg info tr ep im1 im2).2.tempDeleted = tr.tempDeleted ++ [1, 2] ∧
    (innerCall w dbg info tr ep im1 im2).2.requests =
      tr.requests ++ [{ model := modelName, prompt := ep, image1 := im1, image2 := im2 }] := by
  simp only [innerCall]
  cases hcall : w.apiCall { model := modelName, prompt := ep, image1 := im1, image2 := im2 } with
  | error ae => simp [hcall]
  | ok resp =>
      simp only [hcall]
      have h := handleResponse_keeps_trace w dbg info
        { tr with requests := tr.requests ++ [{ model := modelName, prompt := ep, image1 := im1, image2 := im2 }] } resp
      refine ⟨by simp [h.1], by simp [h.2.1], by simp [h.2.2]⟩

theorem innerCall_some_is_pil (w : World) (dbg : Bool) (info : List String) (tr : Trace)
    (ep : String) (im1 im2 : PILImage) (o : OutImage) (st : String)
    (h : (innerCall w dbg info tr ep im1 im2).1 = (some o, st)) :
    (∃ im, o = OutImage.pil im) ∧
    (innerCall w dbg info tr ep im1 im2).2.storeWrites = tr.storeWrites ++ [composite_path] := by
  simp only [innerCall] at h ⊢
  cases hcall : w.apiCall { model := modelName, prompt := ep, image1 := im1, image2 := im2 } with
  | error ae => rw [hcall] at h; simp at h
  | ok resp =>
      rw [hcall] at h
      have h3 : (handleResponse w dbg info
          { tr with requests := tr.requests ++ [{ model := modelName, prompt := ep, image1 := im1, image2 := im2 }] } resp).1 =
          (some o, st) := h
      have h2 := handleResponse_some_is_pil w dbg info
        { tr with requests := tr.requests ++ [{ model := modelName, prompt := ep, image1 := im1, image2 := im2 }] } resp o st h3
      exact ⟨h2.1, h2.2⟩

theorem innerCall_ok (w : World) (dbg : Bool) (info : List String) (tr : Trace)
    (ep : String) (im1 im2 : PILImage) (resp : GenResponse)
    (hcall : w.apiCall { model := modelName, prompt := ep, image1 := im1, image2 := im2 } = Except.ok resp) :
    (innerCall w dbg info tr ep im1 im2).1 =
      (handleResponse w dbg info
        { tr with requests := tr.requests ++ [{ model := modelName, prompt := ep, image1 := im1, image2 := im2 }] } resp).1 := by
  simp only [innerCall, hcall]

theorem process_reaches_call (w : World) (ann : Annot) (sv : ImgVal) (dbg : Bool)
    (box : Box) (bs : List Box) (im1 im2 : PILImage)
    (hb : ann.boxes.getD [] = box :: bs) (hsv : isEmptyNd sv = false)
    (hkey : apiKeyFalsy w.apiKey = false) (hci : w.clientInitErr = none)
    (h1 : toPIL ann.image = Except.ok im1) (h2 : toPIL sv = Except.ok im2) :
    ∃ info,
      process_images w (some ann) (some sv) dbg =
        (Except.ok (innerCall w dbg info { tempCreated := [1, 2] }
            (buildEnhancedPrompt box.xmin box.ymin box.xmax box.ymax) im1 im2).1,
         (innerCall w dbg info { tempCreated := [1, 2] }
            (buildEnhancedPrompt box.xmin box.ymin box.xmax box.ymax) im1 im2).2) := by
  simp only [process_images, outerBody, afterBoxes, hb, hsv, hkey, hci, h1, h2]
  exact ⟨_, rfl⟩

theorem scanParts_fst_no_relevant (w : World) (dbg : Bool) (parts : List RespPart)
    (hfr : firstRelevant parts = none) (i : Nat) (info : List String) (tr : Trace) :
    ∃ st, (scanParts w dbg i info tr parts).1 = (none, st) ∧
      (dbg = false → st = noImageMsg) := by
  obtain ⟨info2, hscan⟩ := scanParts_no_relevant w dbg parts hfr i info tr
  exact ⟨mkStatus dbg noImageMsg info2, by rw [hscan], fun hd => by subst hd; rfl⟩

theorem scanParts_fst_text (w : World) (dbg : Bool) (p : RespPart) (t : String)
    (hp : p.text = some t) (parts : List RespPart)
    (hfr : firstRelevant parts = some p) (i : Nat) (info : List String) (tr : Trace) :
    ∃ st, (scanParts w dbg i info tr parts).1 = (none, st) ∧
      (dbg = false → st = "Gemini Response (Text Only): " ++ t) := by
  obtain ⟨st, hscan, hd⟩ := scanParts_text_first w dbg p t hp parts hfr i info tr
  exact ⟨st, by rw [hscan], hd⟩

theorem scanParts_fst_data (w : World) (dbg : Bool) (p : RespPart) (d : InlineData)
    (img : PILImage) (hpt : p.text = none) (hpd : p.inline_data = some d)
    (hdec : w.decode d.data = Except.ok img) (parts : List RespPart)
    (hfr : firstRelevant parts = some p) (i : Nat) (info : List String) (tr : Trace) :
    ∃ st, (scanParts w dbg i info tr parts).1 =
      (some (OutImage.pil (normalizeOutbound img)), st) := by
  obtain ⟨st, hscan⟩ := scanParts_data_first w dbg p d img hpt hpd hdec parts hfr i info tr
  exact ⟨st, by rw [hscan]⟩

theorem innerCall_first_none (w : World) (dbg : Bool) (info : List String) (tr : Trace)
    (ep : String) (im1 im2 : PILImage) (resp : GenResponse) (c : Candidate)
    (cs : List Candidate)
    (hcall : w.apiCall { model := modelName, prompt := ep, image1 := im1, image2 := im2 } = Except.ok resp)
    (hcand : resp.candidates.getD [] = c :: cs)
    (hfr : firstRelevant c.content.parts = none) :
    ∃ st, (innerCall w dbg info tr ep im1 im2).1 = (none, st) ∧
      (dbg = false → st = noImageMsg) := by
  simp only [innerCall, hcall, handleResponse, hcand]
  exact scanParts_fst_no_relevant w dbg _ hfr 0 _ _

theorem innerCall_first_text (w : World) (dbg : Bool) (info : List String) (tr : Trace)
    (ep : String) (im1 im2 : PILImage) (resp : GenResponse) (c : Candidate)
    (cs : List Candidate) (p : RespPart) (t : String)
    (hcall : w.apiCall { model := modelName, prompt := ep, image1 := im1, image2 := im2 } = Except.ok resp)
    (hcand : resp.candidates.getD [] = c :: cs)
    (hfr : firstRelevant c.content.parts = some p) (hp : p.text = some t) :
    ∃ st, (innerCall w dbg info tr ep im1 im2).1 = (none, st) ∧
      (dbg = false → st = "Gemini Response (Text Only): " ++ t) := by
  simp only [innerCall, hcall, handleResponse, hcand]
  exact scanParts_fst_text w dbg p t hp _ hfr 0 _ _

theorem innerCall_first_data (w : World) (dbg : Bool) (info : List String) (tr : Trace)
    (ep : String) (im1 im2 : PILImage) (resp : GenResponse) (c : Candidate)
    (cs : List Candidate) (p : RespPart) (d : InlineData) (img : PILImage)
    (hcall : w.apiCall { model := modelName, prompt := ep, image1 := im1, image2 := im2 } = Except.ok resp)
    (hcand : resp.candidates.getD [] = c :: cs)
    (hfr : firstRelevant c.content.parts = some p) (hpt : p.text = none)
    (hpd : p.inline_data = some d) (hdec : w.decode d.data = Except.ok img) :
    ∃ st, (innerCall w dbg info tr ep im1 im2).1 =
      (some (OutImage.pil (normalizeOutbound img)), st) := by
  simp only [innerCall, hcall, handleResponse, hcand]
  exact scanParts_fst_data w dbg p d img hpt hpd hdec _ hfr 0 _ _

/-- A small RGB test image. -/
def pilRGB : PILImage :=
  { mode := Mode.RGB, width := 2, height := 2,
    px := fun _ _ => { r := 1, g := 2, b := 3, a := 255 }, fmt := none }

/-- A one-pixel RGBA image whose only pixel is fully transparent. -/
def pilRGBA0 : PILImage :=
  { mode := Mode.RGBA, width := 1, height := 1,
    px := fun _ _ => { r := 7, g := 8, b := 9, a := 0 }, fmt := some "PNG" }

/-- The box of the first bundled example of app.py (line 898). -/
def boxX : Box := { xmin := some 61, ymin := some 298, xmax := some 228, ymax := some 462 }

/-- A well-formed annotation carrying one box. -/
def annX : Annot := { image := ImgVal.pil pilRGB, boxes := some [boxX] }

/-- An annotation whose boxes list is empty. -/
def annEmptyBoxes : Annot := { image := ImgVal.pil pilRGB, boxes := some [] }

/-- A valid second image. -/
def svX : ImgVal := ImgVal.pil pilRGB

/-- A 2 x 2 x 3 uint8 numpy array (12 elements). -/
def arr223 : NpArray := { shape := [2, 2, 3], data := List.replicate 12 0 }

/-- A 2 x 2 x 5 numpy array: nonempty, but Image.fromarray rejects it. -/
def arr225 : NpArray := { shape := [2, 2, 5], data := List.replicate 20 0 }

/-- A response part carrying only text. -/
def partText : RespPart := { text := some "hello", inline_data := none }

/-- A candidate whose single part is the text part. -/
def candText : Candidate := { content := { parts := [partText] } }

/-- A response whose first candidate carries only text. -/
def respText : GenResponse := { candidates := some [candText] }

/-- A response part carrying only inline image bytes. -/
def partData : RespPart := { text := none, inline_data := some { data := [1, 2, 3] } }

/-- A candidate whose single part is the binary part. -/
def candData : Candidate := { content := { parts := [partData] } }

/-- A response whose first candidate carries only binary data. -/
def respData : GenResponse := { candidates := some [candData] }

/-- A world whose generation call returns the text-only response. -/
def wText : World :=
  { apiKey := some "kk", clientInitErr := none,
    apiCall := fun _ => Except.ok respText,
    decode := fun _ => Except.error "broken", tmp1 := "/tmp/t1.png", tmp2 := "/tmp/t2.png" }

/-- A world whose generation call returns the binary response and whose
decoder yields the transparent RGBA test image. -/
def wData : World :=
  { apiKey := some "kk", clientInitErr := none,
    apiCall := fun _ => Except.ok respData,
    decode := fun _ => Except.ok pilRGBA0, tmp1 := "/tmp/t1.png", tmp2 := "/tmp/t2.png" }

/-- A world without the credential environment variable. -/
def wNone : World :=
  { apiKey := none, clientInitErr := none,
    apiCall := fun _ => Except.error "offline",
    decode := fun _ => Except.error "broken", tmp1 := "/tmp/t1.png", tmp2 := "/tmp/t2.png" }

/-- Claim C1: for a generation response with at least one candidate,
process_images scans the first candidate parts in order and consumes at
most one part: if the first relevant part carries text, the invocation
returns a null image with that text surfaced in the final status; if the
first relevant part carries inline binary data and it decodes, the decoded
image (normalized) is the returned output image; if no part carries text
or data, the no-image failure status is returned. -/
theorem C1_response_scan (w : World) (ann : Annot) (sv : ImgVal) (dbg : Bool)
    (box : Box) (bs : List Box) (im1 im2 : PILImage) (resp : GenResponse)
    (c : Candidate) (cs : List Candidate)
    (hb : ann.boxes.getD [] = box :: bs) (hsv : isEmptyNd sv = false)
    (hkey : apiKeyFalsy w.apiKey = false) (hci : w.clientInitErr = none)
    (h1 : toPIL ann.image = Except.ok im1) (h2 : toPIL sv = Except.ok im2)
    (hcall : w.apiCall
        { model := modelName,
          prompt := buildEnhancedPrompt box.xmin box.ymin box.xmax box.ymax,
          image1 := im1, image2 := im2 } = Except.ok resp)
    (hcand : resp.candidates.getD [] = c :: cs) :
    (firstRelevant c.content.parts = none →
      ∃ st, (process_images w (some ann) (some sv) dbg).1 = Except.ok (none, st) ∧
        (dbg = false → st = noImageMsg)) ∧
    (∀ p t, firstRelevant c.content.parts = some p → p.text = some t →
      ∃ st, (process_images w (some ann) (some sv) dbg).1 = Except.ok (none, st) ∧
        (dbg = false → st = "Gemini Response (Text Only): " ++ t)) ∧
    (∀ p d img, firstRelevant c.content.parts = some p → p.text = none →
      p.inline_data = some d → w.decode d.data = Except.ok img →
      ∃ st, (process_images w (some ann) (some sv) dbg).1 =
        Except.ok (some (OutImage.pil (normalizeOutbound img)), st)) := by
  obtain ⟨info, hrun⟩ := process_reaches_call w ann sv dbg box bs im1 im2 hb hsv hkey hci h1 h2
  refine ⟨?_, ?_, ?_⟩
  · intro hfr
    obtain ⟨st, hst, hdbg⟩ := innerCall_first_none w dbg info { tempCreated := [1, 2] }
      (buildEnhancedPrompt box.xmin box.ymin box.xmax box.ymax) im1 im2 resp c cs
      hcall hcand hfr
    refine ⟨st, ?_, hdbg⟩
    rw [hrun]
    simp [hst]
  · intro p t hfr hp
    obtain ⟨st, hst, hdbg⟩ := innerCall_first_text w dbg info { tempCreated := [1, 2] }
      (buildEnhancedPrompt box.xmin box.ymin box.xmax box.ymax) im1 im2 resp c cs p t
      hcall hcand hfr hp
    refine ⟨st, ?_, hdbg⟩
    rw [hrun]
    simp [hst]
  · intro p d img hfr hpt hpd hdec
    obtain ⟨st, hst⟩ := innerCall_first_data w dbg info { tempCreated := [1, 2] }
      (buildEnhancedPrompt box.xmin box.ymin box.xmax box.ymax) im1 im2 resp c cs p d img
      hcall hcand hfr hpt hpd hdec
    refine ⟨st, ?_⟩
    rw [hrun]
    simp [hst]

/-- Witness for C1 at a concrete text-only response: the run surfaces the
model text as the status with a null image. -/
theorem C1_response_scan_witness :
    (process_images wText (some annX) (some svX) false).1 =
      Except.ok (none, "Gemini Response (Text Only): hello") := by
  obtain ⟨st, hst, hdbg⟩ :=
    (C1_response_scan wText annX svX false boxX [] pilRGB pilRGB respText candText []
      rfl rfl rfl rfl rfl rfl rfl rfl).2.1 partText "hello" rfl rfl
  rw [hst, hdbg rfl]
  rfl

/-- Claim C2 (code bug): the guard of app.py line 36 runs outside the
try block, and with annotated_image absent Python evaluates the truthiness
of second_image; for a multi-element numpy array numpy raises ValueError,
which escapes process_images instead of being converted to a status. -/
theorem C2_uncaught_valueerror (dbg : Bool) :
    (process_images wNone none (some (ImgVal.nd arr223)) dbg).1 =
      Except.error (PyErr.valueError
        "The truth value of an array with more than one element is ambiguous. Use a.any() or a.all()") := rfl

/-- Claim C5: with the credential environment variable absent, the run
fails with the authentication error status, creates no temporary image
files, and issues no network request. -/
theorem C5_auth_before_encode (w : World) (ann : Annot) (sv : ImgVal) (dbg : Bool)
    (box : Box) (bs : List Box)
    (hb : ann.boxes.getD [] = box :: bs) (hsv : isEmptyNd sv = false)
    (hkey : w.apiKey = none) :
    (∃ info, (process_images w (some ann) (some sv) dbg).1 =
       Except.ok (none, mkStatus dbg "❌ No Google API key found in environment variables" info)) ∧
    (process_images w (some ann) (some sv) dbg).2.tempCreated = [] ∧
    (process_images w (some ann) (some sv) dbg).2.requests = [] := by
  have hk : apiKeyFalsy w.apiKey = true := by rw [hkey]; rfl
  simp only [process_images, outerBody, afterBoxes, hb, hsv, hk, Bool.false_eq_true,
    if_false, eq_self_iff_true, if_true]
  exact ⟨⟨_, rfl⟩, trivial, trivial⟩

/-- Witness for C5 at a concrete keyless world. -/
theorem C5_auth_before_encode_witness :
    (process_images wNone (some annX) (some svX) false).1 =
      Except.ok (none, "❌ No Google API key found in environment variables") ∧
    (process_images wNone (some annX) (some svX) false).2.tempCreated = [] ∧
    (process_images wNone (some annX) (some svX) false).2.requests = [] := by
  obtain ⟨⟨info, h1⟩, h3, h4⟩ := C5_auth_before_encode wNone annX svX false boxX [] rfl rfl rfl
  exact ⟨by rw [h1]; rfl, h3, h4⟩

/-- Claim C6: with an annotation provided but an empty or absent boxes
sequence, the run fails with the missing-box status, attempts no network
call, and writes nothing to the result store. -/
theorem C6_missing_box (w : World) (ann : Annot) (sv : ImgVal) (dbg : Bool)
    (hb : ann.boxes.getD [] = []) (hsv : isEmptyNd sv = false) :
    (∃ info, (process_images w (some ann) (some sv) dbg).1 =
       Except.ok (none, mkStatus dbg "Please draw an annotation box on the first image" info)) ∧
    (process_images w (some ann) (some sv) dbg).2.requests = [] ∧
    (process_images w (some ann) (some sv) dbg).2.storeWrites = [] := by
  simp only [process_images, outerBody, hb, hsv, Bool.false_eq_true, if_false,
    eq_self_iff_true, if_true]
  exact ⟨⟨_, rfl⟩, trivial, trivial⟩

/-- Witness for C6 at a concrete annotation with an empty boxes list. -/
theorem C6_missing_box_witness :
    (process_images wData (some annEmptyBoxes) (some svX) false).1 =
      Except.ok (none, "Please draw an annotation box on the first image") ∧
    (process_images wData (some annEmptyBoxes) (some svX) false).2.requests = [] ∧
    (process_images wData (some annEmptyBoxes) (some svX) false).2.storeWrites = [] := by
  obtain ⟨⟨info, h1⟩, h3, h4⟩ := C6_missing_box wData annEmptyBoxes svX false rfl rfl
  exact ⟨by rw [h1]; rfl, h3, h4⟩

/-- Claim C9: for every filesystem state, download_image returns the fixed
composite path exactly when that file exists and None otherwise; its
handler converts any raised error to None, so it is total. -/
theorem C9_download_image (fs : String → Bool) :
    download_image fs = (if fs composite_path then some composite_path else none) := by
  by_cases h : fs composite_path <;> simp [download_image, download_image_body, h]

/-- Claim C10: with both inputs absent the guard of app.py line 36 returns
the fixed debug status with a null image and an empty effect trace, before
any other validation (in particular bypassing the missing-annotation
message of line 47). -/
theorem C10_short_circuit (w : World) (dbg : Bool) :
    process_images w none none dbg =
      (Except.ok (none, "🚀 DEBUG: Function called but no images provided"), {}) := rfl

theorem process_requests_prompt (w : World) (ann : Annot) (sv : ImgVal) (dbg : Bool)
    (box : Box) (bs : List Box) (hb : ann.boxes.getD [] = box :: bs) :
    ∀ req ∈ (process_images w (some ann) (some sv) dbg).2.requests,
      req.prompt = buildEnhancedPrompt box.xmin box.ymin box.xmax box.ymax := by
  intro req hreq
  cases hsv : isEmptyNd sv with
  | true => simp [process_images, outerBody, hb, hsv] at hreq
  | false =>
      cases hk : apiKeyFalsy w.apiKey with
      | true => simp [process_images, outerBody, afterBoxes, hb, hsv, hk] at hreq
      | false =>
          cases hci : w.clientInitErr with
          | some ce =>
              simp [process_images, outerBody, afterBoxes, hb, hsv, hk, hci] at hreq
          | none =>
              cases hp1 : toPIL ann.image with
              | error e =>
                  simp [process_images, outerBody, afterBoxes, hb, hsv, hk, hci, hp1] at hreq
              | ok im1 =>
                  cases hp2 : toPIL sv with
                  | error e =>
                      simp [process_images, outerBody, afterBoxes, hb, hsv, hk, hci,
                        hp1, hp2] at hreq
                  | ok im2 =>
                      simp only [process_images, outerBody, afterBoxes, hb, hsv, hk, hci,
                        hp1, hp2, Bool.false_eq_true, if_false, eq_self_iff_true,
                        if_true] at hreq
                      rw [(innerCall_trace w dbg _ _ _ im1 im2).2.2] at hreq
                      simp at hreq
                      subst hreq
                      rfl

/-- Claim C8: prompt building is pure and deterministic: the enhanced
prompt is a constant template with only the four bounds interpolated, so
identical bounds yield byte-identical prompts; and every request issued by
a run of process_images carries exactly the prompt built from the first
box bounds. -/
theorem C8_prompt_deterministic (box box2 : Box)
    (hx : box.xmin = box2.xmin) (hy : box.ymin = box2.ymin)
    (hx2 : box.xmax = box2.xmax) (hy2 : box.ymax = box2.ymax)
    (w : World) (ann : Annot) (sv : ImgVal) (dbg : Bool) (bs : List Box)
    (hb : ann.boxes.getD [] = box :: bs) :
    buildEnhancedPrompt box.xmin box.ymin box.xmax box.ymax =
      buildEnhancedPrompt box2.xmin box2.ymin box2.xmax box2.ymax ∧
    ∀ req ∈ (process_images w (some ann) (some sv) dbg).2.requests,
      req.prompt = buildEnhancedPrompt box2.xmin box2.ymin box2.xmax box2.ymax := by
  have h1 : buildEnhancedPrompt box.xmin box.ymin box.xmax box.ymax =
      buildEnhancedPrompt box2.xmin box2.ymin box2.xmax box2.ymax := by
    rw [hx, hy, hx2, hy2]
  exact ⟨h1, fun req hreq =>
    (process_requests_prompt w ann sv dbg box bs hb req hreq).trans h1⟩

/-- Witness for C8 at the concrete bounds of the first bundled example. -/
theorem C8_prompt_deterministic_witness :
    buildEnhancedPrompt boxX.xmin boxX.ymin boxX.xmax boxX.ymax =
      buildEnhancedPrompt boxX.xmin boxX.ymin boxX.xmax boxX.ymax :=
  (C8_prompt_deterministic boxX boxX rfl rfl rfl rfl wNone annX svX false [] rfl).1

/-- Claim C3 (counterexample): with a second image whose conversion fails
(a 2 x 2 x 5 array, which is nonempty so it passes validation), the first
temporary file is created, the failure is handled by the outer handler of
line 309, and the finally block of line 298 never runs: the created file
is not deleted by the end of the invocation. -/
theorem C3_leak_counterexample :
    (process_images wText (some annX) (some (ImgVal.nd arr225)) false).2.tempCreated = [1] ∧
    (process_images wText (some annX) (some (ImgVal.nd arr225)) false).2.tempDeleted = [] ∧
    (process_images wText (some annX) (some (ImgVal.nd arr225)) false).1 =
      Except.ok (none, "Unexpected error: Cannot handle this data type") :=
  ⟨rfl, rfl, rfl⟩

/-- Claim C3 (amended): on every invocation that records both temporary
files as created (equivalently, that reaches the generation stage), both
files are deleted by the end of the invocation on every exit path. -/
theorem C3_cleanup_after_both (w : World) (annotated : Option Annot)
    (second : Option ImgVal) (dbg : Bool)
    (h : (process_images w annotated second dbg).2.tempCreated = [1, 2]) :
    (process_images w annotated second dbg).2.tempDeleted = [1, 2] := by
  cases annotated with
  | none =>
      cases ht : truthySecond second with
      | error e => simp [process_images, ht] at h
      | ok t =>
          cases t with
          | false => simp [process_images, ht] at h
          | true => simp [process_images, ht, outerBody] at h
  | some ann =>
      cases second with
      | none => simp [process_images, outerBody] at h
      | some sv =>
          cases hsv : isEmptyNd sv with
          | true => simp [process_images, outerBody, hsv] at h
          | false =>
              cases hbx : ann.boxes.getD [] with
              | nil => simp [process_images, outerBody, hsv, hbx] at h
              | cons box bs =>
                  cases hk : apiKeyFalsy w.apiKey with
                  | true =>
                      simp [process_images, outerBody, afterBoxes, hsv, hbx, hk] at h
                  | false =>
                      cases hci : w.clientInitErr with
                      | some ce =>
                          simp [process_images, outerBody, afterBoxes, hsv, hbx,
                            hk, hci] at h
                      | none =>
                          cases hp1 : toPIL ann.image with
                          | error e =>
                              simp [process_images, outerBody, afterBoxes, hsv, hbx,
                                hk, hci, hp1] at h
                          | ok im1 =>
                              cases hp2 : toPIL sv with
                              | error e =>
                                  simp [process_images, outerBody, afterBoxes, hsv, hbx,
                                    hk, hci, hp1, hp2] at h
                              | ok im2 =>
                                  simp only [process_images, outerBody, afterBoxes, hsv,
                                    hbx, hk, hci, hp1, hp2, Bool.false_eq_true, if_false,
                                    eq_self_iff_true, if_true]
                                  exact ((innerCall_trace w dbg _ _ _ im1 im2).2.1).trans rfl

/-- Witness for the amended C3 at a concrete successful run: both files
are created and both are deleted. -/
theorem C3_cleanup_after_both_witness :
    (process_images wData (some annX) (some svX) false).2.tempCreated = [1, 2] ∧
    (process_images wData (some annX) (some svX) false).2.tempDeleted = [1, 2] :=
  ⟨rfl, C3_cleanup_after_both wData (some annX) (some svX) false rfl⟩

/-- Claim C4: outbound normalization yields an image with exactly 3
channels for every input mode in {P, LA, RGBA, RGB, L}, compositing alpha
over opaque white; in particular for RGBA input every fully transparent
pixel becomes pure white. -/
theorem C4_normalize_outbound (img : PILImage)
    (hm : img.mode = Mode.P ∨ img.mode = Mode.LA ∨ img.mode = Mode.RGBA ∨
      img.mode = Mode.RGB ∨ img.mode = Mode.L) :
    channels (normalizeOutbound img).mode = 3 ∧
    (∀ x y, img.mode = Mode.RGBA → (img.px x y).a = 0 →
      (normalizeOutbound img).px x y = { r := 255, g := 255, b := 255, a := 255 }) := by
  constructor
  · rcases hm with h | h | h | h | h <;>
      simp [normalizeOutbound, h, PILImage.convertRGBA, PILImage.convertRGB,
        pasteWhiteMask, pasteOpaque, channels]
  · intro x y hrgba ha
    simp [normalizeOutbound, hrgba, pasteWhiteMask, blendChan, muldiv255, ha]

/-- Witness for C4 at the concrete transparent RGBA image. -/
theorem C4_normalize_outbound_witness :
    channels (normalizeOutbound pilRGBA0).mode = 3 ∧
    (normalizeOutbound pilRGBA0).px 0 0 = { r := 255, g := 255, b := 255, a := 255 } :=
  ⟨(C4_normalize_outbound pilRGBA0 (Or.inr (Or.inr (Or.inl rfl)))).1,
   (C4_normalize_outbound pilRGBA0 (Or.inr (Or.inr (Or.inl rfl)))).2 0 0 rfl rfl⟩

/-- Extracts the image slot of a process_images outcome. -/
def okImage : Except PyErr (Option OutImage × String) → Option OutImage
  | Except.ok (o, _) => o
  | Except.error _ => none

/-- True when an image slot holds a filesystem path value. -/
def isPathValue : Option OutImage → Bool
  | some (OutImage.fspath _) => true
  | _ => false

/-- Claim C7 (counterexample): a successful run returns an in-memory image
object in the image slot of the (image, status) pair, not a filesystem
path to the result store fixed file. -/
theorem C7_path_counterexample :
    (okImage (process_images wData (some annX) (some svX) false).1).isSome = true ∧
    isPathValue (okImage (process_images wData (some annX) (some svX) false).1) = false :=
  ⟨rfl, rfl⟩

/-- Claim C7 (amended): every successful invocation returns the normalized
decoded image object itself in the image slot and writes the result store
fixed file generated_composite.png exactly once as a side effect; the
fixed path is what download_image returns, not the generate output. -/
theorem C7_success_returns_image (w : World) (annotated : Option Annot)
    (second : Option ImgVal) (dbg : Bool) (o : OutImage) (st : String)
    (h : (process_images w annotated second dbg).1 = Except.ok (some o, st)) :
    (∃ im, o = OutImage.pil im) ∧
    (process_images w annotated second dbg).2.storeWrites = [composite_path] := by
  cases annotated with
  | none =>
      cases ht : truthySecond second with
      | error e => simp [process_images, ht] at h
      | ok t =>
          cases t with
          | false => simp [process_images, ht] at h
          | true => simp [process_images, ht, outerBody] at h
  | some ann =>
      cases second with
      | none => simp [process_images, outerBody] at h
      | some sv =>
          cases hsv : isEmptyNd sv with
          | true => simp [process_images, outerBody, hsv] at h
          | false =>
              cases hbx : ann.boxes.getD [] with
              | nil => simp [process_images, outerBody, hsv, hbx] at h
              | cons box bs =>
                  cases hk : apiKeyFalsy w.apiKey with
                  | true =>
                      simp [process_images, outerBody, afterBoxes, hsv, hbx, hk] at h
                  | false =>
                      cases hci : w.clientInitErr with
                      | some ce =>
                          simp [process_images, outerBody, afterBoxes, hsv, hbx,
                            hk, hci] at h
                      | none =>
                          cases hp1 : toPIL ann.image with
                          | error e =>
                              simp [process_images, outerBody, afterBoxes, hsv, hbx,
                                hk, hci, hp1] at h
                          | ok im1 =>
                              cases hp2 : toPIL sv with
                              | error e =>
                                  simp [process_images, outerBody, afterBoxes, hsv, hbx,
                                    hk, hci, hp1, hp2] at h
                              | ok im2 =>
                                  simp only [process_images, outerBody, afterBoxes, hsv,
                                    hbx, hk, hci, hp1, hp2, Bool.false_eq_true, if_false,
                                    eq_self_iff_true, if_true, Except.ok.injEq] at h ⊢
                                  exact ⟨(innerCall_some_is_pil w dbg _ _ _ im1 im2 o st h).1,
                                    ((innerCall_some_is_pil w dbg _ _ _ im1 im2 o st h).2).trans rfl⟩

/-- Witness for the amended C7 at a concrete successful run. -/
theorem C7_success_returns_image_witness :
    (process_images wData (some annX) (some svX) false).2.storeWrites = [composite_path] :=
  (C7_success_returns_image wData (some annX) (some svX) false _ _ rfl).2

/-- Witness for C9 at a filesystem where the result file exists. -/
theorem C9_download_image_witness :
    download_image (fun p => p == composite_path) = some composite_path := by
  rw [C9_download_image (fun p => p == composite_path)]
  rfl

/-- Witness for C10 at a concrete world. -/
theorem C10_short_circuit_witness :
    process_images wNone none none false =
      (Except.ok (none, "🚀 DEBUG: Function called but no images provided"), {}) :=
  C10_short_circuit wNone false
